import Mathlib

/-!
Verification of the Polygon opportunity detector bot (src/main.rs, src/db.rs).

Shallow embedding conventions:
- `U256` values are modelled as `ℕ` (the claims never exercise 256-bit overflow;
  the only subtraction the code performs is guarded so it never underflows).
- `f64` configuration values (`min_profit_threshold`, `simulated_gas_cost`) and
  the computed `profit_in_usdc` are modelled as exact rationals `ℚ`.
- The per-tick body of the infinite `loop` in `main` (src/main.rs lines 87-165)
  is modelled as the function `pollTick`; the Rust `?` operator on
  `con.execute(...)` is modelled as the `TickResult.abort` branch, which makes
  `runLoop` stop consuming further ticks (in the program, the error propagates
  out of `main` and the process exits).
- The fallible contract call `.call().await` of each venue is a parameter of
  type `Except String (List ℕ)`; `unwrap_or_else` becomes `fetched`.
- `Utc::now().to_rfc3339()` is an input parameter `timestamp`.
-/

namespace PolygonBot

/-- The `[simulation]` section of `config.toml` (struct `Simulation` in main.rs).
`min_profit_threshold` and `simulated_gas_cost` are `f64` in the source,
modelled as `ℚ`. -/
structure Simulation where
  min_profit_threshold : ℚ
  fixed_trade_size : ℕ
  simulated_gas_cost : ℚ
  check_interval_secs : ℕ
deriving DecidableEq

/-- The persisted record (table `arbitrage_opportunities` in db.rs; the values
bound in the `INSERT` at main.rs lines 157-160). The auto-increment `id` is
assigned by the store and is not part of the inserted tuple. -/
structure ArbitrageOpportunity where
  buy_dex : String
  sell_dex : String
  profit_usdc : ℚ
  timestamp : String
deriving DecidableEq

/-- main.rs line 118: the fixed sanity floor `U256::from(1_000_000)`. -/
def SANITY_FLOOR : ℕ := 1000000

/-- main.rs lines 115-116: `out.get(1).cloned().unwrap_or(U256::zero())`. -/
def getPriceRaw (out : List ℕ) : ℕ := (out.get? 1).getD 0

/-- main.rs line 143: `U256::from((simulated_gas_cost * 1e6) as u128)`.
The Rust `as u128` cast truncates toward zero and saturates negative values
to zero, which on `ℚ` is `Int.toNat ∘ Int.floor` of the product. -/
def gasCostRaw (g : ℚ) : ℕ := (g * 1000000).floor.toNat

/-- When the configured gas cost times the scale factor is exactly the natural
number `n` (as in every documented scenario), the truncating cast is the
identity and the raw gas cost is `n`. -/
theorem gasCostRaw_eq (g : ℚ) (n : ℕ) (h : g * 1000000 = (n : ℚ)) : gasCostRaw g = n := by
  unfold gasCostRaw
  rw [h, Rat.floor_def']
  simp

/-- main.rs lines 128-141: the `buy_dex` / `sell_dex` strings. Both start as
`""` and are reassigned only in the two strict-inequality branches; on equal
quotes they remain `""`. First component is `buy_dex`, second is `sell_dex`. -/
def direction (dex1_price_raw dex2_price_raw : ℕ) : String × String :=
  if dex1_price_raw > dex2_price_raw then ("SushiSwap", "QuickSwap")
  else if dex2_price_raw > dex1_price_raw then ("QuickSwap", "SushiSwap")
  else ("", "")

/-- main.rs lines 144-148: `diff`, the absolute difference of the raw quotes,
computed with guarded `U256` subtraction. -/
def diffRaw (dex1_price_raw dex2_price_raw : ℕ) : ℕ :=
  if dex1_price_raw > dex2_price_raw then dex1_price_raw - dex2_price_raw
  else dex2_price_raw - dex1_price_raw

/-- main.rs line 149: `profit = if diff > gas_cost { diff - gas_cost } else { 0 }`. -/
def profitRawOf (dex1_price_raw dex2_price_raw : ℕ) (g : ℚ) : ℕ :=
  if diffRaw dex1_price_raw dex2_price_raw > gasCostRaw g then
    diffRaw dex1_price_raw dex2_price_raw - gasCostRaw g
  else 0

/-- main.rs line 150: `profit_in_usdc = profit.as_u128() as f64 / 1e6`. -/
def profitUsdcOf (dex1_price_raw dex2_price_raw : ℕ) (g : ℚ) : ℚ :=
  (profitRawOf dex1_price_raw dex2_price_raw g : ℚ) / 1000000

/-- Observable outcome of the evaluation part of one tick (main.rs 115-164):
`invalid` is the `continue` at line 120 ("invalid price"), `noRecord` is the
"profit is small" / "both are same" path with no insert attempted, and
`record` carries the candidate row that reaches the `INSERT`. -/
inductive TickOutcome where
  | invalid
  | noRecord
  | record (buy_dex sell_dex : String) (profit_usdc : ℚ)
deriving DecidableEq

/-- main.rs lines 115-164, the pure evaluator of one tick: sanity gate, then
direction, gas-adjusted profit, and the strict threshold test
`profit_in_usdc > min_profit_threshold`. -/
def evalTick (dex1_out dex2_out : List ℕ) (sim : Simulation) : TickOutcome :=
  if getPriceRaw dex1_out < SANITY_FLOOR ∨ getPriceRaw dex2_out < SANITY_FLOOR then
    TickOutcome.invalid
  else if profitUsdcOf (getPriceRaw dex1_out) (getPriceRaw dex2_out)
      sim.simulated_gas_cost > sim.min_profit_threshold then
    TickOutcome.record
      (direction (getPriceRaw dex1_out) (getPriceRaw dex2_out)).1
      (direction (getPriceRaw dex1_out) (getPriceRaw dex2_out)).2
      (profitUsdcOf (getPriceRaw dex1_out) (getPriceRaw dex2_out) sim.simulated_gas_cost)
  else
    TickOutcome.noRecord

/-- main.rs lines 93-110: `.call().await.unwrap_or_else(|err| vec![0, 0])` —
a failed venue call substitutes the two-element zero vector. -/
def fetched (res : Except String (List ℕ)) : List ℕ :=
  match res with
  | Except.ok v => v
  | Except.error _ => [0, 0]

/-- Result of one iteration of the `loop` in `main`: `next` means control
reaches the bottom of the loop body and the loop continues (carrying the row
that was inserted this tick, if any); `abort` means the `?` on
`con.execute(...)` (main.rs line 160) propagated an error out of `main`. -/
inductive TickResult where
  | next (inserted : Option ArbitrageOpportunity)
  | abort (err : String)
deriving DecidableEq

/-- One full iteration of the poll loop (main.rs lines 87-165): substitute the
fetch results, evaluate, and on a candidate run the store insert, whose failure
is propagated by `?`. -/
def pollTick (dex1_res dex2_res : Except String (List ℕ)) (sim : Simulation)
    (insertResult : ArbitrageOpportunity → Except String Unit) (timestamp : String) :
    TickResult :=
  match evalTick (fetched dex1_res) (fetched dex2_res) sim with
  | TickOutcome.record b s p =>
      match insertResult ⟨b, s, p, timestamp⟩ with
      | Except.ok _ => TickResult.next (some ⟨b, s, p, timestamp⟩)
      | Except.error e => TickResult.abort e
  | _ => TickResult.next none

/-- The external inputs consumed by one tick: the two venue call results, the
store's response to an insert, and the wall-clock timestamp. -/
structure TickInput where
  dex1_res : Except String (List ℕ)
  dex2_res : Except String (List ℕ)
  insertResult : ArbitrageOpportunity → Except String Unit
  timestamp : String

/-- The poll loop over a finite trace of tick inputs: it processes ticks in
order, accumulating inserted rows, and an `abort` (propagated store error)
ends the run with that error, leaving later ticks unprocessed — this models
the `?` unwinding out of `main`'s infinite loop. -/
def runLoop (sim : Simulation) : List TickInput → Except String (List ArbitrageOpportunity)
  | [] => Except.ok []
  | t :: rest =>
      match pollTick t.dex1_res t.dex2_res sim t.insertResult t.timestamp with
      | TickResult.abort e => Except.error e
      | TickResult.next inserted =>
          match runLoop sim rest with
          | Except.error e => Except.error e
          | Except.ok l => Except.ok (inserted.toList ++ l)

theorem direction_eq_of_lt {x y : ℕ} (h : x < y) :
    direction x y = ("QuickSwap", "SushiSwap") := by
  unfold direction
  rw [if_neg (by omega), if_pos (by omega)]

theorem direction_eq_of_gt {x y : ℕ} (h : y < x) :
    direction x y = ("SushiSwap", "QuickSwap") := by
  unfold direction
  rw [if_pos (by omega)]

/-- The guarded `U256` subtraction at main.rs 144-148 computes the absolute
difference of the two raw quotes, viewed in `ℤ`. -/
theorem diffRaw_cast (a b : ℕ) : ((diffRaw a b : ℕ) : ℤ) = |(a : ℤ) - (b : ℤ)| := by
  rcases le_or_lt ((a : ℤ) - (b : ℤ)) 0 with h | h
  · rw [abs_of_nonpos h]
    unfold diffRaw
    split <;> omega
  · rw [abs_of_pos h]
    unfold diffRaw
    split <;> omega

theorem profitRawOf_self (a : ℕ) (g : ℚ) : profitRawOf a a g = 0 := by
  unfold profitRawOf diffRaw
  simp

theorem ne_of_profitRawOf_pos {a b : ℕ} {g : ℚ} (h : 0 < profitRawOf a b g) : a ≠ b := by
  intro heq
  subst heq
  rw [profitRawOf_self] at h
  exact absurd h (by omega)

theorem profitRawOf_pos_of_usdc_pos {a b : ℕ} {g : ℚ}
    (h : 0 < profitUsdcOf a b g) : 0 < profitRawOf a b g := by
  by_contra hp
  push_neg at hp
  have h0 : profitRawOf a b g = 0 := Nat.le_zero.mp hp
  unfold profitUsdcOf at h
  rw [h0] at h
  norm_num at h

/-- Inversion for the evaluator: it emits a candidate row exactly when both raw
quotes clear the sanity floor and the gas-adjusted decimal profit strictly
exceeds the configured threshold, and then the row is the direction pair
together with that profit. -/
theorem evalTick_eq_record_iff (out1 out2 : List ℕ) (sim : Simulation)
    (b s : String) (p : ℚ) :
    evalTick out1 out2 sim = TickOutcome.record b s p ↔
      (SANITY_FLOOR ≤ getPriceRaw out1 ∧ SANITY_FLOOR ≤ getPriceRaw out2 ∧
       sim.min_profit_threshold <
         profitUsdcOf (getPriceRaw out1) (getPriceRaw out2) sim.simulated_gas_cost ∧
       b = (direction (getPriceRaw out1) (getPriceRaw out2)).1 ∧
       s = (direction (getPriceRaw out1) (getPriceRaw out2)).2 ∧
       p = profitUsdcOf (getPriceRaw out1) (getPriceRaw out2) sim.simulated_gas_cost) := by
  unfold evalTick
  by_cases h : getPriceRaw out1 < SANITY_FLOOR ∨ getPriceRaw out2 < SANITY_FLOOR
  · rw [if_pos h]
    constructor
    · intro hc
      cases hc
    · rintro ⟨h1, h2, -⟩
      omega
  · rw [if_neg h]
    push_neg at h
    by_cases hp : profitUsdcOf (getPriceRaw out1) (getPriceRaw out2) sim.simulated_gas_cost
        > sim.min_profit_threshold
    · rw [if_pos hp]
      constructor
      · intro hc
        obtain ⟨hb, hs, hpp⟩ := TickOutcome.record.inj hc.symm
        exact ⟨h.1, h.2, hp, hb, hs, hpp⟩
      · rintro ⟨-, -, -, hb, hs, hpp⟩
        rw [hb, hs, hpp]
    · rw [if_neg hp]
      constructor
      · intro hc
        cases hc
      · rintro ⟨-, -, hlt, -⟩
        exact absurd hlt hp

/-- Inversion for one loop iteration: a tick ends with a row inserted exactly
when the evaluator emitted that row (with this tick's timestamp) and the store
accepted it. -/
theorem pollTick_next_some {d1 d2 : Except String (List ℕ)} {sim : Simulation}
    {ins : ArbitrageOpportunity → Except String Unit} {ts : String}
    {opp : ArbitrageOpportunity}
    (h : pollTick d1 d2 sim ins ts = TickResult.next (some opp)) :
    evalTick (fetched d1) (fetched d2) sim
      = TickOutcome.record opp.buy_dex opp.sell_dex opp.profit_usdc ∧
    opp.timestamp = ts := by
  unfold pollTick at h
  cases hE : evalTick (fetched d1) (fetched d2) sim with
  | invalid =>
      rw [hE] at h
      simp at h
  | noRecord =>
      rw [hE] at h
      simp at h
  | record b s p =>
      rw [hE] at h
      cases hI : ins ⟨b, s, p, ts⟩ with
      | ok u =>
          simp only [hI, TickResult.next.injEq, Option.some.injEq] at h
          subst h
          exact ⟨rfl, rfl⟩
      | error e =>
          simp only [hI] at h
          cases h

theorem pollTick_of_record (d1 d2 : Except String (List ℕ)) (sim : Simulation)
    {b s : String} {p : ℚ} (ts : String)
    (hE : evalTick (fetched d1) (fetched d2) sim = TickOutcome.record b s p) :
    pollTick d1 d2 sim (fun _ => Except.ok ()) ts
      = TickResult.next (some ⟨b, s, p, ts⟩) := by
  unfold pollTick
  rw [hE]

theorem pollTick_abort_of_record (d1 d2 : Except String (List ℕ)) (sim : Simulation)
    {b s : String} {p : ℚ} (e ts : String)
    (hE : evalTick (fetched d1) (fetched d2) sim = TickOutcome.record b s p) :
    pollTick d1 d2 sim (fun _ => Except.error e) ts = TickResult.abort e := by
  unfold pollTick
  rw [hE]

theorem pollTick_of_invalid (d1 d2 : Except String (List ℕ)) (sim : Simulation)
    (ins : ArbitrageOpportunity → Except String Unit) (ts : String)
    (hE : evalTick (fetched d1) (fetched d2) sim = TickOutcome.invalid) :
    pollTick d1 d2 sim ins ts = TickResult.next none := by
  unfold pollTick
  rw [hE]

theorem pollTick_of_noRecord (d1 d2 : Except String (List ℕ)) (sim : Simulation)
    (ins : ArbitrageOpportunity → Except String Unit) (ts : String)
    (hE : evalTick (fetched d1) (fetched d2) sim = TickOutcome.noRecord) :
    pollTick d1 d2 sim ins ts = TickResult.next none := by
  unfold pollTick
  rw [hE]

/-- Scenario from the design notes: raw quotes 2,000,000 and 1,950,000 with gas
cost 0.02 and threshold 0.01 yield the candidate (buy SushiSwap, sell
QuickSwap, profit 0.03). Stated over `fetched` of two successful calls so it
plugs directly into the loop lemmas. -/
theorem evalTick_scenario_profitable :
    evalTick (fetched (Except.ok [1, 2000000])) (fetched (Except.ok [1, 1950000]))
      ⟨0.01, 1, 0.02, 5⟩ = TickOutcome.record "SushiSwap" "QuickSwap" (3 / 100) := by
  have hg : gasCostRaw (1 / 50 : ℚ) = 20000 := gasCostRaw_eq _ 20000 (by norm_num)
  norm_num [evalTick, fetched, getPriceRaw, profitUsdcOf, profitRawOf, diffRaw, direction,
    SANITY_FLOOR, hg]

/-- Scenario from the design notes: diff 500 below the 10,000 raw gas cost
yields no record. -/
theorem evalTick_scenario_gas_dominates :
    evalTick (fetched (Except.ok [1, 1000500])) (fetched (Except.ok [1, 1000000]))
      ⟨0.0001, 1, 0.01, 5⟩ = TickOutcome.noRecord := by
  have hg : gasCostRaw (1 / 100 : ℚ) = 10000 := gasCostRaw_eq _ 10000 (by norm_num)
  norm_num [evalTick, fetched, getPriceRaw, profitUsdcOf, profitRawOf, diffRaw, direction,
    SANITY_FLOOR, hg]

/-- With equal at-floor quotes the direction strings keep their initial empty
values, yet a negative configured threshold (never rejected by the config
loader) lets the zero profit pass the strict comparison. -/
theorem evalTick_equal_quotes_negative_threshold :
    evalTick (fetched (Except.ok [0, 1000000])) (fetched (Except.ok [0, 1000000]))
      ⟨-1, 1, 0, 5⟩ = TickOutcome.record "" "" 0 := by
  have hg : gasCostRaw (0 : ℚ) = 0 := gasCostRaw_eq _ 0 (by norm_num)
  norm_num [evalTick, fetched, getPriceRaw, profitUsdcOf, profitRawOf, diffRaw, direction,
    SANITY_FLOOR, hg]

/-- C1 counterexample: on a tick whose quotes yield a candidate opportunity, a
failing store insert does NOT let the loop proceed to the next tick — the
iteration ends in `abort` (the `?` on `con.execute` at main.rs line 160
propagates the error out of `main`), and a run containing a subsequent healthy
tick ends with the store error without processing that tick. This refutes the
claim that no condition besides the two fatal-startup cases stops the
process. -/
theorem C1_counterexample :
    evalTick (fetched (Except.ok [1, 2000000])) (fetched (Except.ok [1, 1950000]))
        ⟨0.01, 1, 0.02, 5⟩ = TickOutcome.record "SushiSwap" "QuickSwap" (3 / 100) ∧
    pollTick (Except.ok [1, 2000000]) (Except.ok [1, 1950000]) ⟨0.01, 1, 0.02, 5⟩
        (fun _ => Except.error "disk full") "t1" ≠ TickResult.next none ∧
    pollTick (Except.ok [1, 2000000]) (Except.ok [1, 1950000]) ⟨0.01, 1, 0.02, 5⟩
        (fun _ => Except.error "disk full") "t1" = TickResult.abort "disk full" ∧
    runLoop ⟨0.01, 1, 0.02, 5⟩
        [⟨Except.ok [1, 2000000], Except.ok [1, 1950000], fun _ => Except.error "disk full", "t1"⟩,
         ⟨Except.ok [1, 2000000], Except.ok [1, 1950000], fun _ => Except.ok (), "t2"⟩]
      = Except.error "disk full" := by
  have habort := pollTick_abort_of_record (Except.ok [1, 2000000]) (Except.ok [1, 1950000])
    ⟨0.01, 1, 0.02, 5⟩ "disk full" "t1" evalTick_scenario_profitable
  refine ⟨evalTick_scenario_profitable, ?_, habort, ?_⟩
  · rw [habort]
    intro hc
    cases hc
  · simp only [runLoop]
    rw [habort]

/-- C1 (amended): whenever the evaluator emits a candidate opportunity and the
subsequent store insert fails, the error is propagated, not logged-and-ignored:
the iteration ends in `abort` carrying the store's error (so the failure is
surfaced, never silently swallowed), and the loop run terminates with that
error, leaving every later tick unprocessed. A store-insert failure is thus a
third process-stopping condition besides the two fatal-startup cases. -/
theorem C1_insert_failure_stops_loop (d1 d2 : Except String (List ℕ)) (sim : Simulation)
    (b s : String) (p : ℚ) (e ts : String) (rest : List TickInput)
    (hrec : evalTick (fetched d1) (fetched d2) sim = TickOutcome.record b s p) :
    pollTick d1 d2 sim (fun _ => Except.error e) ts = TickResult.abort e ∧
    runLoop sim (⟨d1, d2, fun _ => Except.error e, ts⟩ :: rest) = Except.error e := by
  have habort := pollTick_abort_of_record d1 d2 sim e ts hrec
  refine ⟨habort, ?_⟩
  simp only [runLoop]
  rw [habort]

theorem C1_insert_failure_stops_loop_witness :
    evalTick (fetched (Except.ok [1, 2000000])) (fetched (Except.ok [1, 1950000]))
        ⟨0.01, 1, 0.02, 5⟩ = TickOutcome.record "SushiSwap" "QuickSwap" (3 / 100) ∧
    (pollTick (Except.ok [1, 2000000]) (Except.ok [1, 1950000]) ⟨0.01, 1, 0.02, 5⟩
        (fun _ => Except.error "io error") "t" = TickResult.abort "io error" ∧
     runLoop ⟨0.01, 1, 0.02, 5⟩
        [⟨Except.ok [1, 2000000], Except.ok [1, 1950000], fun _ => Except.error "io error", "t"⟩]
       = Except.error "io error") :=
  ⟨evalTick_scenario_profitable,
   C1_insert_failure_stops_loop (Except.ok [1, 2000000]) (Except.ok [1, 1950000])
     ⟨0.01, 1, 0.02, 5⟩ "SushiSwap" "QuickSwap" (3 / 100) "io error" "t" []
     evalTick_scenario_profitable⟩

/-- C2 counterexample: with both quotes exactly at the sanity floor (so equal)
and a negative configured minimum-profit threshold — which the config loader
accepts, since it never validates the sign of the `f64` — the strict
comparison `0 > threshold` succeeds and a row is persisted whose `buy_dex` and
`sell_dex` are both the initial empty string: equal to each other and outside
the set of known venue names. -/
theorem C2_counterexample :
    pollTick (Except.ok [0, 1000000]) (Except.ok [0, 1000000]) ⟨-1, 1, 0, 5⟩
        (fun _ => Except.ok ()) "t" = TickResult.next (some ⟨"", "", 0, "t"⟩) ∧
    (ArbitrageOpportunity.mk "" "" 0 "t").buy_dex
      = (ArbitrageOpportunity.mk "" "" 0 "t").sell_dex ∧
    (ArbitrageOpportunity.mk "" "" 0 "t").buy_dex ≠ "QuickSwap" ∧
    (ArbitrageOpportunity.mk "" "" 0 "t").buy_dex ≠ "SushiSwap" := by
  refine ⟨?_, rfl, by decide, by decide⟩
  exact pollTick_of_record (Except.ok [0, 1000000]) (Except.ok [0, 1000000]) ⟨-1, 1, 0, 5⟩
    "t" evalTick_equal_quotes_negative_threshold

/-- C2 (amended): provided the configured minimum-profit threshold is
non-negative, every row a tick persists has `buy_dex` and `sell_dex` mutually
distinct and drawn from the venue set {QuickSwap, SushiSwap}. (With a negative
threshold the code can persist a row with both venues the empty string, as the
counterexample shows.) -/
theorem C2_persisted_venues (d1 d2 : Except String (List ℕ)) (sim : Simulation)
    (ins : ArbitrageOpportunity → Except String Unit) (ts : String)
    (opp : ArbitrageOpportunity)
    (hth : 0 ≤ sim.min_profit_threshold)
    (h : pollTick d1 d2 sim ins ts = TickResult.next (some opp)) :
    opp.buy_dex ≠ opp.sell_dex ∧
    ((opp.buy_dex = "QuickSwap" ∧ opp.sell_dex = "SushiSwap") ∨
     (opp.buy_dex = "SushiSwap" ∧ opp.sell_dex = "QuickSwap")) := by
  obtain ⟨hE, -⟩ := pollTick_next_some h
  rw [evalTick_eq_record_iff] at hE
  obtain ⟨-, -, hlt, hb, hs, -⟩ := hE
  have husdc : 0 < profitUsdcOf (getPriceRaw (fetched d1)) (getPriceRaw (fetched d2))
      sim.simulated_gas_cost := lt_of_le_of_lt hth hlt
  have hne := ne_of_profitRawOf_pos (profitRawOf_pos_of_usdc_pos husdc)
  rcases Nat.lt_or_ge (getPriceRaw (fetched d1)) (getPriceRaw (fetched d2)) with hlt2 | hge
  · rw [direction_eq_of_lt hlt2] at hb hs
    rw [hb, hs]
    exact ⟨by decide, Or.inl ⟨rfl, rfl⟩⟩
  · have hgt : getPriceRaw (fetched d2) < getPriceRaw (fetched d1) :=
      lt_of_le_of_ne hge (Ne.symm hne)
    rw [direction_eq_of_gt hgt] at hb hs
    rw [hb, hs]
    exact ⟨by decide, Or.inr ⟨rfl, rfl⟩⟩

theorem C2_persisted_venues_witness :
    (0 : ℚ) ≤ (Simulation.mk 0.01 1 0.02 5).min_profit_threshold ∧
    pollTick (Except.ok [1, 2000000]) (Except.ok [1, 1950000]) ⟨0.01, 1, 0.02, 5⟩
        (fun _ => Except.ok ()) "t"
      = TickResult.next (some ⟨"SushiSwap", "QuickSwap", 3 / 100, "t"⟩) ∧
    ((ArbitrageOpportunity.mk "SushiSwap" "QuickSwap" (3 / 100) "t").buy_dex
        ≠ (ArbitrageOpportunity.mk "SushiSwap" "QuickSwap" (3 / 100) "t").sell_dex ∧
     (((ArbitrageOpportunity.mk "SushiSwap" "QuickSwap" (3 / 100) "t").buy_dex = "QuickSwap" ∧
       (ArbitrageOpportunity.mk "SushiSwap" "QuickSwap" (3 / 100) "t").sell_dex = "SushiSwap") ∨
      ((ArbitrageOpportunity.mk "SushiSwap" "QuickSwap" (3 / 100) "t").buy_dex = "SushiSwap" ∧
       (ArbitrageOpportunity.mk "SushiSwap" "QuickSwap" (3 / 100) "t").sell_dex = "QuickSwap"))) := by
  have hins : pollTick (Except.ok [1, 2000000]) (Except.ok [1, 1950000]) ⟨0.01, 1, 0.02, 5⟩
      (fun _ => Except.ok ()) "t"
      = TickResult.next (some ⟨"SushiSwap", "QuickSwap", 3 / 100, "t"⟩) :=
    pollTick_of_record (Except.ok [1, 2000000]) (Except.ok [1, 1950000]) ⟨0.01, 1, 0.02, 5⟩
      "t" evalTick_scenario_profitable
  exact ⟨by norm_num, hins,
    C2_persisted_venues (Except.ok [1, 2000000]) (Except.ok [1, 1950000]) ⟨0.01, 1, 0.02, 5⟩
      (fun _ => Except.ok ()) "t" ⟨"SushiSwap", "QuickSwap", 3 / 100, "t"⟩
      (by norm_num) hins⟩

/-- C3 counterexample: the code reads index 1 of the returned sequence, not the
last element; on the three-element sequence [1, 2, 3] the extracted raw quote
is 2 while the last element is 3. -/
theorem C3_counterexample :
    getPriceRaw [1, 2, 3] = 2 ∧ ([1, 2, 3] : List ℕ).getLast? = some 3 ∧
    getPriceRaw [1, 2, 3] ≠ (([1, 2, 3] : List ℕ).getLast?).getD 0 := by
  refine ⟨rfl, rfl, ?_⟩
  decide

/-- C3 (amended): the raw quote extracted from a venue's returned sequence is
the element at index 1 (defaulting to zero when absent), which coincides with
the sequence's last element exactly for the two-element sequences produced by
the configured two-token swap path. -/
theorem C3_index_one_is_last_of_pair (l : List ℕ) (h : l.length = 2) :
    getPriceRaw l = (l.getLast?).getD 0 := by
  cases l with
  | nil => simp at h
  | cons a t =>
    cases t with
    | nil => simp at h
    | cons b t2 =>
      cases t2 with
      | nil => rfl
      | cons c t3 => simp at h

theorem C3_index_one_is_last_of_pair_witness :
    ([1, 2000000] : List ℕ).length = 2 ∧
    getPriceRaw [1, 2000000] = (([1, 2000000] : List ℕ).getLast?).getD 0 :=
  ⟨rfl, C3_index_one_is_last_of_pair [1, 2000000] rfl⟩

/-- C4: for raw quotes at or above the sanity floor and unequal, the buy venue
is the one with the lower raw quote and the sell venue the higher — venue A is
QuickSwap (quote `a`), venue B is SushiSwap (quote `b`), and the comparison is
on raw integers — and the assignment is antisymmetric: swapping the quotes
swaps buy and sell. -/
theorem C4_buy_lower_sell_higher (a b : ℕ)
    (ha : SANITY_FLOOR ≤ a) (hb : SANITY_FLOOR ≤ b) (hne : a ≠ b) :
    (a < b → direction a b = ("QuickSwap", "SushiSwap")) ∧
    (b < a → direction a b = ("SushiSwap", "QuickSwap")) ∧
    direction b a = ((direction a b).2, (direction a b).1) := by
  refine ⟨fun h => direction_eq_of_lt h, fun h => direction_eq_of_gt h, ?_⟩
  rcases Nat.lt_or_ge a b with h | h
  · rw [direction_eq_of_lt h, direction_eq_of_gt h]
  · have h2 : b < a := lt_of_le_of_ne h (Ne.symm hne)
    rw [direction_eq_of_gt h2, direction_eq_of_lt h2]

theorem C4_buy_lower_sell_higher_witness :
    SANITY_FLOOR ≤ 1000000 ∧ SANITY_FLOOR ≤ 1000001 ∧ (1000000 : ℕ) ≠ 1000001 ∧
    ((1000000 < 1000001 → direction 1000000 1000001 = ("QuickSwap", "SushiSwap")) ∧
     (1000001 < 1000000 → direction 1000000 1000001 = ("SushiSwap", "QuickSwap")) ∧
     direction 1000001 1000000 = ((direction 1000000 1000001).2, (direction 1000000 1000001).1)) :=
  ⟨by decide, by decide, by decide,
   C4_buy_lower_sell_higher 1000000 1000001 (by decide) (by decide) (by decide)⟩

/-- C5: for quotes passing the validity gate, when the configured decimal gas
cost scales to exactly `n` raw units (`g * 10^6 = n`, as in every documented
scenario), the raw profit is `|quoteA - quoteB| - gasRaw` computed in exact
integer arithmetic when positive and 0 otherwise (`Int.toNat` clamps at zero),
and the decimal profit is the raw profit divided by the scale factor. -/
theorem C5_gas_adjusted_profit (a b : ℕ) (g : ℚ) (n : ℕ)
    (ha : SANITY_FLOOR ≤ a) (hb : SANITY_FLOOR ≤ b) (hg : g * 1000000 = (n : ℚ)) :
    profitRawOf a b g = (|(a : ℤ) - (b : ℤ)| - (n : ℤ)).toNat ∧
    profitUsdcOf a b g = (profitRawOf a b g : ℚ) / 1000000 := by
  constructor
  · have hgas : gasCostRaw g = n := gasCostRaw_eq g n hg
    unfold profitRawOf
    rw [hgas, ← diffRaw_cast]
    split <;> omega
  · rfl

theorem C5_gas_adjusted_profit_witness :
    SANITY_FLOOR ≤ 2000000 ∧ SANITY_FLOOR ≤ 1950000 ∧
    (0.02 : ℚ) * 1000000 = ((20000 : ℕ) : ℚ) ∧
    (profitRawOf 2000000 1950000 0.02 = (|(2000000 : ℤ) - (1950000 : ℤ)| - (20000 : ℤ)).toNat ∧
     profitUsdcOf 2000000 1950000 0.02 = (profitRawOf 2000000 1950000 0.02 : ℚ) / 1000000) :=
  ⟨by decide, by decide, by norm_num,
   C5_gas_adjusted_profit 2000000 1950000 0.02 20000 (by decide) (by decide) (by norm_num)⟩

/-- C6: a tick (here with a store that accepts the insert) persists a row
exactly when both raw quotes clear the sanity floor and the computed decimal
profit STRICTLY exceeds the configured threshold; the row is then unique and
fully determined — direction pair, the computed profit, and this tick's
timestamp. In particular a profit exactly equal to the threshold persists
nothing, and a strictly larger profit persists exactly this one row. -/
theorem C6_record_iff_strict_threshold (d1 d2 : Except String (List ℕ)) (sim : Simulation)
    (ts : String) (opp : ArbitrageOpportunity) :
    pollTick d1 d2 sim (fun _ => Except.ok ()) ts = TickResult.next (some opp) ↔
      (SANITY_FLOOR ≤ getPriceRaw (fetched d1) ∧ SANITY_FLOOR ≤ getPriceRaw (fetched d2) ∧
       sim.min_profit_threshold <
         profitUsdcOf (getPriceRaw (fetched d1)) (getPriceRaw (fetched d2))
           sim.simulated_gas_cost ∧
       opp = ⟨(direction (getPriceRaw (fetched d1)) (getPriceRaw (fetched d2))).1,
              (direction (getPriceRaw (fetched d1)) (getPriceRaw (fetched d2))).2,
              profitUsdcOf (getPriceRaw (fetched d1)) (getPriceRaw (fetched d2))
                sim.simulated_gas_cost, ts⟩) := by
  constructor
  · intro h
    obtain ⟨hE, hts⟩ := pollTick_next_some h
    rw [evalTick_eq_record_iff] at hE
    obtain ⟨h1, h2, h3, hb, hs, hp⟩ := hE
    refine ⟨h1, h2, h3, ?_⟩
    cases opp with
    | mk ob os op ot =>
        rw [ArbitrageOpportunity.mk.injEq]
        exact ⟨hb, hs, hp, hts⟩
  · rintro ⟨h1, h2, h3, ho⟩
    subst ho
    exact pollTick_of_record d1 d2 sim ts
      (by rw [evalTick_eq_record_iff]; exact ⟨h1, h2, h3, rfl, rfl, rfl⟩)

/-- C7: if either raw quote is below the fixed floor 1,000,000, the tick is
discarded as the invalid-price condition (main.rs 118-121): the evaluator
yields `invalid` — so no direction pair and no candidate — and the loop
iteration completes normally with nothing inserted, whatever the store would
have answered. -/
theorem C7_below_floor_discards (out1 out2 : List ℕ) (sim : Simulation)
    (h : getPriceRaw out1 < SANITY_FLOOR ∨ getPriceRaw out2 < SANITY_FLOOR) :
    evalTick out1 out2 sim = TickOutcome.invalid ∧
    ∀ ins ts, pollTick (Except.ok out1) (Except.ok out2) sim ins ts = TickResult.next none := by
  have hE : evalTick out1 out2 sim = TickOutcome.invalid := by
    unfold evalTick
    rw [if_pos h]
  exact ⟨hE, fun ins ts => pollTick_of_invalid (Except.ok out1) (Except.ok out2) sim ins ts hE⟩

theorem C7_below_floor_discards_witness :
    (getPriceRaw [0, 999999] < SANITY_FLOOR ∨ getPriceRaw [0, 2000000] < SANITY_FLOOR) ∧
    (evalTick [0, 999999] [0, 2000000] ⟨0.01, 1, 0.02, 5⟩ = TickOutcome.invalid ∧
     ∀ ins ts, pollTick (Except.ok [0, 999999]) (Except.ok [0, 2000000]) ⟨0.01, 1, 0.02, 5⟩
       ins ts = TickResult.next none) :=
  ⟨Or.inl (by decide),
   C7_below_floor_discards [0, 999999] [0, 2000000] ⟨0.01, 1, 0.02, 5⟩ (Or.inl (by decide))⟩

/-- C8 counterexample: for equal at-floor quotes the claim promises no record
for EVERY configuration of gas cost and threshold, but with a (never
validated) negative threshold the zero profit passes the strict comparison and
a record is emitted and persisted. -/
theorem C8_counterexample :
    getPriceRaw (fetched (Except.ok [0, 1000000]))
      = getPriceRaw (fetched (Except.ok [0, 1000000])) ∧
    SANITY_FLOOR ≤ getPriceRaw (fetched (Except.ok [0, 1000000])) ∧
    evalTick (fetched (Except.ok [0, 1000000])) (fetched (Except.ok [0, 1000000]))
      ⟨-1, 1, 0, 5⟩ = TickOutcome.record "" "" 0 ∧
    pollTick (Except.ok [0, 1000000]) (Except.ok [0, 1000000]) ⟨-1, 1, 0, 5⟩
      (fun _ => Except.ok ()) "t" = TickResult.next (some ⟨"", "", 0, "t"⟩) :=
  ⟨rfl, by decide, evalTick_equal_quotes_negative_threshold,
   pollTick_of_record (Except.ok [0, 1000000]) (Except.ok [0, 1000000]) ⟨-1, 1, 0, 5⟩ "t"
     evalTick_equal_quotes_negative_threshold⟩

/-- C8 (amended): for equal raw quotes at or above the sanity floor, and any
gas cost, the evaluator yields the no-op outcome and the tick persists nothing
— provided the configured minimum-profit threshold is non-negative (a negative
threshold makes the zero profit pass the strict test, as the counterexample
shows). -/
theorem C8_equal_quotes_no_record (out1 out2 : List ℕ) (sim : Simulation)
    (hfloor : SANITY_FLOOR ≤ getPriceRaw out1)
    (heq : getPriceRaw out1 = getPriceRaw out2)
    (hth : 0 ≤ sim.min_profit_threshold) :
    evalTick out1 out2 sim = TickOutcome.noRecord ∧
    ∀ ins ts, pollTick (Except.ok out1) (Except.ok out2) sim ins ts = TickResult.next none := by
  have hfloor2 : SANITY_FLOOR ≤ getPriceRaw out2 := heq ▸ hfloor
  have hraw : profitRawOf (getPriceRaw out1) (getPriceRaw out2) sim.simulated_gas_cost = 0 := by
    rw [← heq]
    exact profitRawOf_self _ _
  have husdc : profitUsdcOf (getPriceRaw out1) (getPriceRaw out2) sim.simulated_gas_cost = 0 := by
    unfold profitUsdcOf
    rw [hraw]
    norm_num
  have hE : evalTick out1 out2 sim = TickOutcome.noRecord := by
    unfold evalTick
    rw [if_neg (by omega), if_neg (by rw [husdc]; exact not_lt.mpr hth)]
  exact ⟨hE, fun ins ts => pollTick_of_noRecord (Except.ok out1) (Except.ok out2) sim ins ts hE⟩

theorem C8_equal_quotes_no_record_witness :
    SANITY_FLOOR ≤ getPriceRaw [0, 1234567] ∧
    getPriceRaw [0, 1234567] = getPriceRaw [7, 1234567] ∧
    (0 : ℚ) ≤ (Simulation.mk 0 1 0.02 5).min_profit_threshold ∧
    (evalTick [0, 1234567] [7, 1234567] ⟨0, 1, 0.02, 5⟩ = TickOutcome.noRecord ∧
     ∀ ins ts, pollTick (Except.ok [0, 1234567]) (Except.ok [7, 1234567]) ⟨0, 1, 0.02, 5⟩
       ins ts = TickResult.next none) :=
  ⟨by decide, rfl, le_refl 0,
   C8_equal_quotes_no_record [0, 1234567] [7, 1234567] ⟨0, 1, 0.02, 5⟩
     (by decide) rfl (le_refl 0)⟩

/-- C9: a failed venue call is replaced by the zero vector `[0, 0]` rather than
aborting the tick; the substituted zero quote then fails the sanity floor, so
the evaluator discards the tick as invalid whatever the other venue returned,
nothing is inserted, and the iteration ends in `next` — never in `abort` — so
the loop continues regardless of the store. This holds symmetrically for
either venue failing (and hence for both). -/
theorem C9_failed_fetch_substitutes_zero (e : String) (other : Except String (List ℕ))
    (sim : Simulation) (ins : ArbitrageOpportunity → Except String Unit) (ts : String) :
    fetched (Except.error e) = [0, 0] ∧
    getPriceRaw (fetched (Except.error e)) = 0 ∧
    evalTick (fetched (Except.error e)) (fetched other) sim = TickOutcome.invalid ∧
    evalTick (fetched other) (fetched (Except.error e)) sim = TickOutcome.invalid ∧
    pollTick (Except.error e) other sim ins ts = TickResult.next none ∧
    pollTick other (Except.error e) sim ins ts = TickResult.next none := by
  have hz : getPriceRaw (fetched (Except.error e)) < SANITY_FLOOR := by
    show (0 : ℕ) < SANITY_FLOOR
    decide
  have h1 : evalTick (fetched (Except.error e)) (fetched other) sim = TickOutcome.invalid := by
    unfold evalTick
    rw [if_pos (Or.inl hz)]
  have h2 : evalTick (fetched other) (fetched (Except.error e)) sim = TickOutcome.invalid := by
    unfold evalTick
    rw [if_pos (Or.inr hz)]
  exact ⟨rfl, rfl, h1, h2,
    pollTick_of_invalid (Except.error e) other sim ins ts h1,
    pollTick_of_invalid other (Except.error e) sim ins ts h2⟩

/-- C10: extracting the raw quote from a returned sequence is total — it is an
`Option` lookup at index 1 with a zero default, so the empty sequence and any
one-element sequence yield zero instead of a panic, and such a malformed short
response is discarded by the same invalid-price path as a failed fetch. -/
theorem C10_short_sequence_yields_zero (l other : List ℕ) (sim : Simulation)
    (h : l.length ≤ 1) :
    getPriceRaw l = 0 ∧
    evalTick l other sim = TickOutcome.invalid ∧
    evalTick other l sim = TickOutcome.invalid := by
  have h0 : getPriceRaw l = 0 := by
    unfold getPriceRaw
    cases l with
    | nil => rfl
    | cons a t =>
        cases t with
        | nil => rfl
        | cons b t2 => simp at h
  refine ⟨h0, ?_, ?_⟩
  · unfold evalTick
    rw [if_pos (Or.inl (by rw [h0]; decide))]
  · unfold evalTick
    rw [if_pos (Or.inr (by rw [h0]; decide))]

theorem C10_short_sequence_yields_zero_witness :
    ([] : List ℕ).length ≤ 1 ∧
    (getPriceRaw [] = 0 ∧
     evalTick [] [1, 2000000] ⟨0.01, 1, 0.02, 5⟩ = TickOutcome.invalid ∧
     evalTick [1, 2000000] [] ⟨0.01, 1, 0.02, 5⟩ = TickOutcome.invalid) :=
  ⟨by decide, C10_short_sequence_yields_zero [] [1, 2000000] ⟨0.01, 1, 0.02, 5⟩ (by decide)⟩

end PolygonBot
